import Mathlib

/-!
Shallow embedding of `whisper_bridge.py` (OpenWispr whisper bridge).

Conventions of the embedding:
* Python floats (wall-clock times, percentages, speeds) are modelled as exact
  rationals `ℚ`; byte counts are `ℕ`.
* The progress-monitor thread (`monitor_download_progress`) is modelled as a
  fold over a list of `Sample`s: one `Sample` per loop iteration, recording
  what the world looked like at that poll (whether the stop signal was set,
  whether reading the file raised, whether the file existed, its size, and
  the value `time.time()` returned).  The 500 ms `time.sleep` at the end of
  each iteration is reflected as a hypothesis on sample timestamps where a
  claim needs it.
* `print(..., file=sys.stderr)` of a progress dict is modelled by appending a
  `ProgressEvent` to the returned event list.  The display-only roundings
  `round(percentage, 1)` and `round(speed_mbps, 2)` of the payload are
  omitted; the raw values are carried.
* The global dict `_model_cache` is modelled as an association list in
  insertion order (Python dicts iterate in insertion order, `del` preserves
  the order of the remaining keys, and `load_model` only ever inserts keys
  that are not present, so insertion appends at the tail and
  `next(iter(cache))` is the head).
* External collaborators (`whisper.load_model`, the filesystem, `os.remove`)
  enter as explicit parameters/oracles.
-/

namespace WhisperBridge

attribute [local semireducible] Rat.add Rat.mul Rat.inv Rat.sub Rat.ofScientific

/-- Discriminator of the dicts printed as `PROGRESS:` lines: `"progress"`
from the monitor loop, `"complete"` from the orchestrator. -/
inductive EventType
  | progress
  | complete
deriving DecidableEq

/-- One `PROGRESS:` line written to stderr (fields of the Python dict;
`time` is the instrumented emission instant, used to state temporal claims). -/
structure ProgressEvent where
  etype : EventType
  model : String
  downloaded_bytes : ℕ
  total_bytes : ℤ
  percentage : ℚ
  speed_mbps : ℚ
  time : ℚ
deriving DecidableEq

/-- What one iteration of the monitor loop observes. -/
structure Sample where
  stopSet : Bool
  ioError : Bool
  fileOnDisk : Bool
  size : ℕ
  time : ℚ
deriving DecidableEq

/-- The local variables of `monitor_download_progress` that survive an
iteration (lines 133-136 of the source). -/
structure MonitorState where
  last_size : ℕ
  last_update_time : ℚ
  speed_samples : List ℚ
  last_progress_update : ℚ
deriving DecidableEq

/-- Result of one loop iteration: updated locals, the event printed by this
iteration (if any), and whether the iteration executed `break`. -/
structure StepResult where
  state : MonitorState
  event : Option ProgressEvent
  brk : Bool
deriving DecidableEq

/-- `current_size = os.path.getsize(model_file)` if the file exists, else 0
(lines 140-142). -/
def effectiveSize (inp : Sample) : ℕ :=
  if inp.fileOnDisk then inp.size else 0

/-- Line 160: `min((current_size / expected_size * 100) if expected_size > 0
else 0, 100)`. -/
def percentageOf (expected_size : ℤ) (current_size : ℕ) : ℚ :=
  min (if 0 < expected_size then
        (current_size : ℚ) / (expected_size : ℚ) * 100 else 0) 100

/-- Guard of the speed computation, line 149:
`last_size > 0 and time_diff > 0 and current_size > last_size`. -/
abbrev grewCond (s : MonitorState) (current_size : ℕ) (time_diff : ℚ) : Prop :=
  0 < s.last_size ∧ 0 < time_diff ∧ s.last_size < current_size

/-- Lines 150-151: instantaneous throughput in Mbps. -/
def instantSpeed (s : MonitorState) (current_size : ℕ) (time_diff : ℚ) : ℚ :=
  ((current_size : ℚ) - (s.last_size : ℚ)) / time_diff * 8 / (1024 * 1024)

/-- Lines 155-156: after appending, `pop(0)` when more than 10 samples. -/
def trimWindow (w : List ℚ) : List ℚ :=
  if 10 < w.length then w.drop 1 else w

/-- The sample window after one iteration (unchanged unless the file grew). -/
def updatedSamples (s : MonitorState) (current_size : ℕ) (time_diff : ℚ) : List ℚ :=
  if grewCond s current_size time_diff then
    trimWindow (s.speed_samples ++ [instantSpeed s current_size time_diff])
  else s.speed_samples

/-- `speed_mbps` as of line 157: the window mean when the file grew, else the
0 it was initialised to at line 148. -/
def smoothedSpeed (s : MonitorState) (current_size : ℕ) (time_diff : ℚ) : ℚ :=
  if grewCond s current_size time_diff then
    (updatedSamples s current_size time_diff).sum /
      ((updatedSamples s current_size time_diff).length : ℚ)
  else 0

/-- Lines 163-164: `current_time - last_progress_update > 0.5 or
abs(percentage - last_progress_update) > 1.0`.  Note the source reuses
`last_progress_update` (a percentage, set at line 176) inside the time
comparison; the embedding reproduces that verbatim. -/
abbrev emitCond (s : MonitorState) (current_time percentage : ℚ) : Prop :=
  (0.5 : ℚ) < current_time - s.last_progress_update ∨
    (1.0 : ℚ) < |percentage - s.last_progress_update|

/-- One iteration of the `while` body (lines 138-191).  An `ioError` sample
models the `except Exception: pass` path: the body is skipped wholesale
(the exception can only arise at the initial filesystem reads, before any
local is mutated). -/
def monitorStep (model_name : String) (expected_size : ℤ) (s : MonitorState)
    (inp : Sample) : StepResult :=
  if inp.ioError then ⟨s, none, false⟩ else
  let current_size := effectiveSize inp
  let current_time := inp.time
  let time_diff := current_time - s.last_update_time
  let speed_samples := updatedSamples s current_size time_diff
  let speed_mbps := smoothedSpeed s current_size time_diff
  let percentage := percentageOf expected_size current_size
  let event : Option ProgressEvent :=
    if emitCond s current_time percentage then
      some ⟨.progress, model_name, current_size, expected_size, percentage,
            if 0 < speed_mbps then speed_mbps else 0, current_time⟩
    else none
  let lpu := if emitCond s current_time percentage then percentage
             else s.last_progress_update
  if (expected_size : ℚ) * 0.95 ≤ (current_size : ℚ) then
    ⟨⟨s.last_size, s.last_update_time, speed_samples, lpu⟩, event, true⟩
  else if current_size = s.last_size ∧
      10 < current_time - s.last_update_time ∧
      (expected_size : ℚ) * 0.9 < (current_size : ℚ) then
    ⟨⟨s.last_size, s.last_update_time, speed_samples, lpu⟩, event, true⟩
  else
    ⟨⟨current_size, current_time, speed_samples, lpu⟩, event, false⟩

/-- Locals as initialised at lines 133-136 (`t0` is the wall clock when the
monitor starts). -/
def monitorInit (t0 : ℚ) : MonitorState :=
  ⟨0, t0, [], 0⟩

/-- The monitor loop over a finite prefix of poll observations.  Returns the
events printed, whether the loop terminated during these polls (stop signal
or `break`), and the locals at the end. -/
def monitor_download_progress (model_name : String) (expected_size : ℤ) :
    MonitorState → List Sample → List ProgressEvent × Bool × MonitorState
  | s, [] => ([], false, s)
  | s, inp :: rest =>
    if inp.stopSet then ([], true, s)
    else
      let r := monitorStep model_name expected_size s inp
      if r.brk then (r.event.toList, true, r.state)
      else
        let tail := monitor_download_progress model_name expected_size r.state rest
        (r.event.toList ++ tail.1, tail.2.1, tail.2.2)

/-- Projection to (emission time, percentage), the data the temporal and
monotonicity claims are about. -/
def eventKey (ev : ProgressEvent) : ℚ × ℚ :=
  (ev.time, ev.percentage)

/-- The (time, percentage) an iteration on `inp` would stamp on its event. -/
def sampleKey (expected_size : ℤ) (inp : Sample) : ℚ × ℚ :=
  (inp.time, percentageOf expected_size (effectiveSize inp))

/-- The dict of lines 242-248, printed once by `download_model` on the
success path: `type: complete`, `percentage: 100` (no speed field; 0 here). -/
def completeEvent (model_name : String) (final_size : ℕ) (expected_size : ℤ)
    (t : ℚ) : ProgressEvent :=
  ⟨.complete, model_name, final_size, expected_size, 100, 0, t⟩

/-- Number of `complete`-typed events in a stream. -/
def completeCount (evs : List ProgressEvent) : ℕ :=
  evs.countP (fun e => decide (e.etype = EventType.complete))

/-- The dicts returned by `download_model` (`size_mb` and `path` are derived
display fields, omitted). -/
structure OperationResult where
  model : String
  downloaded : Bool
  size_bytes : Option ℕ
  error : Option String
  success : Bool
deriving DecidableEq

/-- How the blocking `whisper.load_model` call at line 227 ends: normal
return, an exception, or a `KeyboardInterrupt`. -/
inductive DownloadOutcome
  | completed
  | raised (msg : String)
  | interrupted
deriving DecidableEq

/-- Observable actions of one `download_model` invocation: whether the
monitor thread was started, whether the blocking download call was made,
whether `stop_event.set()` ran, whether the bounded `join(timeout=1)` ran,
the `PROGRESS:` lines of the whole invocation in emission order, and the
returned dict. -/
structure OrchestratorRun where
  monitorSpawned : Bool
  downloadInvoked : Bool
  signalSet : Bool
  joinedBounded : Bool
  events : List ProgressEvent
  result : OperationResult
deriving DecidableEq

/-- `download_model` (lines 193-275).  The monitor thread runs concurrently
with the blocking call; the `progress` events it printed during the
invocation enter as the parameter `monitorEvents`.  `fileExistsAtStart`
models the `os.path.exists(model_file)` check at line 204;
`finalFileExists`/`final_size` model the re-check at lines 237-239; `t_end`
is the instant the completion dict is printed. -/
def download_model (model_name : String) (fileExistsAtStart : Bool)
    (existing_size : ℕ) (expected_size : ℤ) (monitorEvents : List ProgressEvent)
    (outcome : DownloadOutcome) (finalFileExists : Bool) (final_size : ℕ)
    (t_end : ℚ) : OrchestratorRun :=
  if fileExistsAtStart then
    { monitorSpawned := false, downloadInvoked := false, signalSet := false,
      joinedBounded := false, events := [],
      result := ⟨model_name, true, some existing_size, none, true⟩ }
  else
    match outcome with
    | .completed =>
      { monitorSpawned := true, downloadInvoked := true, signalSet := true,
        joinedBounded := true,
        events := monitorEvents ++
          [completeEvent model_name (if finalFileExists then final_size else 0)
            expected_size t_end],
        result := ⟨model_name, true,
          some (if finalFileExists then final_size else 0), none, true⟩ }
    | .raised msg =>
      { monitorSpawned := true, downloadInvoked := true, signalSet := true,
        joinedBounded := false, events := monitorEvents,
        result := ⟨model_name, false, none, some msg, false⟩ }
    | .interrupted =>
      { monitorSpawned := true, downloadInvoked := true, signalSet := true,
        joinedBounded := false, events := monitorEvents,
        result := ⟨model_name, false, none,
          some "Download interrupted by user", false⟩ }

/-- The dicts returned by `delete_model` (`freed_mb` omitted, derived). -/
structure DeleteResult where
  model : String
  deleted : Bool
  freed_bytes : Option ℕ
  error : Option String
  success : Bool
deriving DecidableEq

/-- `delete_model` (lines 322-352).  `fileOnDisk`/`file_size` describe the
resolved model file; `osError` models the `except Exception` branch (a
filesystem call raising).  Returns the result dict and whether the file is
still on disk afterwards.  The catch-all means no exception ever escapes:
every path returns a dict. -/
def delete_model (model_name : String) (fileOnDisk : Bool) (file_size : ℕ)
    (osError : Option String) : DeleteResult × Bool :=
  match osError with
  | some msg => (⟨model_name, false, none, some msg, false⟩, fileOnDisk)
  | none =>
    if fileOnDisk then
      (⟨model_name, true, some file_size, none, true⟩, false)
    else
      (⟨model_name, false, none, some "Model not found", false⟩, false)

/-- The global `_model_cache`, as an association list in insertion order
(head = earliest inserted; Python dicts iterate in insertion order and
`load_model` only inserts keys that are absent, so inserts append and
`next(iter(_model_cache))` is the head). -/
abbrev ModelCache (M : Type) := List (String × M)

/-- `if len(_model_cache) >= 2` at line 91. -/
def MAX_CACHED : ℕ := 2

/-- `model_name in _model_cache` / `_model_cache[model_name]`. -/
def cacheLookup {M : Type} (c : ModelCache M) (k : String) : Option M :=
  (c.find? (fun p => p.1 == k)).map (fun p => p.2)

/-- `load_model` (lines 79-100).  `loads` is the external
`whisper.load_model` collaborator; `none` models it raising.  Returns the
Python return value (`None` on failure) and the cache afterwards. -/
def load_model {M : Type} (loads : String → Option M) (c : ModelCache M)
    (model_name : String) : Option M × ModelCache M :=
  match cacheLookup c model_name with
  | some m => (some m, c)
  | none =>
    match loads model_name with
    | none => (none, c)
    | some model =>
      let c' := if MAX_CACHED ≤ c.length then c.drop 1 else c
      (some model, c' ++ [(model_name, model)])

/-- The cache after a sequence of `load_model` calls starting from the empty
module-level `_model_cache = {}`. -/
def runLoads {M : Type} (loads : String → Option M) (names : List String) :
    ModelCache M :=
  names.foldl (fun c n => (load_model loads c n).2) []

/-- `--mode` choices (line 428). -/
inductive Mode
  | transcribe
  | download
  | check
  | list
  | delete
  | checkFfmpeg
deriving DecidableEq

/-- `--output-format` choices (line 436). -/
inductive OutputFormat
  | json
  | text
deriving DecidableEq

/-- The parsed CLI arguments `main` dispatches on (model/language choices do
not influence control flow in `main` and are omitted). -/
structure CliArgs where
  mode : Mode
  audio_file : Option String
  output_format : OutputFormat
deriving DecidableEq

/-- The success flag and error message of the dict the selected operation
produced (all `main` inspects). -/
structure ModeOutcome where
  success : Bool
  error : Option String
deriving DecidableEq

/-- `main` (lines 425-485): returns the result dict the invocation reports
and the process exit code (`return` from `main` exits 0; `sys.exit(1)`
exits 1).  `audioFileOnDisk` models `os.path.exists(args.audio_file)`;
`opResult` is the dict produced by the dispatched operation. -/
def main (args : CliArgs) (audioFileOnDisk : Bool) (opResult : ModeOutcome) :
    ModeOutcome × ℕ :=
  match args.mode with
  | .download => (opResult, 0)
  | .check => (opResult, 0)
  | .list => (opResult, 0)
  | .delete => (opResult, 0)
  | .checkFfmpeg => (opResult, 0)
  | .transcribe =>
    match args.audio_file with
    | none => (⟨false, some "Audio file required for transcription mode"⟩, 1)
    | some f =>
      if audioFileOnDisk = false then
        (⟨false, some ("Audio file not found: " ++ f)⟩, 1)
      else
        match args.output_format with
        | .json => (opResult, 0)
        | .text => (opResult, if opResult.success then 0 else 1)

/-- 26 polls, 0.5 s apart, of a file stuck at 92 of 100 expected bytes:
12.5 s without growth, above the 0.9 threshold, below the 0.95 one. -/
def stallTrace : List Sample :=
  (List.range 26).map (fun i => ⟨false, false, true, 92, 1000 + ((i : ℚ) + 1) / 2⟩)

/-- Three polls: growth 0→10, growth 10→20, then a zero-growth poll. -/
def speedTrace : List Sample :=
  [⟨false, false, true, 10, 1000 + 1/2⟩,
   ⟨false, false, true, 20, 1001⟩,
   ⟨false, false, true, 20, 1001 + 1/2⟩]

/-- Three polls, 0.5 s apart, with a steadily growing file. -/
def throttleTrace : List Sample :=
  [⟨false, false, true, 10, 1000⟩,
   ⟨false, false, true, 20, 1000 + 1/2⟩,
   ⟨false, false, true, 30, 1001⟩]

/-! Helper lemmas shared by the claim theorems. -/

theorem percentageOf_nonneg (expected_size : ℤ) (n : ℕ) :
    0 ≤ percentageOf expected_size n := by
  unfold percentageOf
  rcases lt_or_le 0 expected_size with h | h
  · rw [if_pos h]
    refine le_min ?_ (by norm_num)
    have he : (0 : ℚ) ≤ (expected_size : ℚ) := by exact_mod_cast h.le
    exact mul_nonneg (div_nonneg (Nat.cast_nonneg n) he) (by norm_num)
  · rw [if_neg (not_lt.mpr h)]
    norm_num

theorem percentageOf_le_100 (expected_size : ℤ) (n : ℕ) :
    percentageOf expected_size n ≤ 100 :=
  min_le_right _ _

theorem percentageOf_mono (expected_size : ℤ) {a b : ℕ} (h : a ≤ b) :
    percentageOf expected_size a ≤ percentageOf expected_size b := by
  unfold percentageOf
  rcases lt_or_le 0 expected_size with he | he
  · rw [if_pos he, if_pos he]
    refine min_le_min ?_ le_rfl
    have ha : (a : ℚ) ≤ (b : ℚ) := by exact_mod_cast h
    have he' : (0 : ℚ) < (expected_size : ℚ) := by exact_mod_cast he
    gcongr
  · rw [if_neg (not_lt.mpr he), if_neg (not_lt.mpr he)]

/-- Every event a loop iteration prints is a `progress` event stamped with
the iteration's observed time, percentage and smoothed speed. -/
theorem monitorStep_event (model_name : String) (expected_size : ℤ)
    (s : MonitorState) (inp : Sample) :
    (monitorStep model_name expected_size s inp).event = none ∨
      (monitorStep model_name expected_size s inp).event =
        some ⟨.progress, model_name, effectiveSize inp, expected_size,
              percentageOf expected_size (effectiveSize inp),
              if 0 < smoothedSpeed s (effectiveSize inp) (inp.time - s.last_update_time)
              then smoothedSpeed s (effectiveSize inp) (inp.time - s.last_update_time)
              else 0, inp.time⟩ := by
  simp only [monitorStep]
  split_ifs <;> simp

/-- The sample window an iteration leaves behind is `updatedSamples` (or the
old window when the filesystem read raised). -/
theorem monitorStep_state_samples (model_name : String) (expected_size : ℤ)
    (s : MonitorState) (inp : Sample) :
    (monitorStep model_name expected_size s inp).state.speed_samples =
      if inp.ioError then s.speed_samples
      else updatedSamples s (effectiveSize inp) (inp.time - s.last_update_time) := by
  simp only [monitorStep]
  split_ifs <;> simp_all

/-- The (time, percentage) keys of the emitted events form a sublist of the
keys of the polled samples: each event comes from one iteration, in order. -/
theorem monitor_events_key_sublist (model_name : String) (expected_size : ℤ)
    (tr : List Sample) : ∀ s : MonitorState,
    ((monitor_download_progress model_name expected_size s tr).1.map eventKey).Sublist
      (tr.map (sampleKey expected_size)) := by
  induction tr with
  | nil => intro s; simp [monitor_download_progress]
  | cons inp rest ih =>
    intro s
    by_cases hstop : inp.stopSet
    · simp [monitor_download_progress, hstop]
    · rcases monitorStep_event model_name expected_size s inp with h | h <;>
        by_cases hbrk : (monitorStep model_name expected_size s inp).brk
      · simp [monitor_download_progress, hstop, hbrk, h]
      · simpa [monitor_download_progress, hstop, hbrk, h] using
          ((ih (monitorStep model_name expected_size s inp).state).cons
            (sampleKey expected_size inp))
      · simp [monitor_download_progress, hstop, hbrk, h, eventKey, sampleKey]
      · simpa [monitor_download_progress, hstop, hbrk, h, eventKey, sampleKey] using
          ((ih (monitorStep model_name expected_size s inp).state).cons₂
            (sampleKey expected_size inp))

/-- Claim C1: in the sequence of `progress` events emitted by the monitor,
no two consecutively emitted events are separated by less than 0.5 s unless
the percentage moved by more than 1.0 point between them.  The hypothesis
records that consecutive polls are at least 0.5 s apart (the
`time.sleep(0.5)` at line 191); under it consecutive emitted events are
always at least 0.5 s apart, so the claimed disjunction holds. -/
theorem c1_progress_event_spacing (model_name : String) (expected_size : ℤ)
    (s : MonitorState) (tr : List Sample)
    (hgap : tr.Chain' (fun a b => a.time + 1/2 ≤ b.time)) :
    ((monitor_download_progress model_name expected_size s tr).1).Chain'
      (fun e₁ e₂ => e₂.time - e₁.time < 1/2 → 1 < |e₂.percentage - e₁.percentage|) := by
  have hsub := monitor_events_key_sublist model_name expected_size tr s
  have htr : (tr.map (sampleKey expected_size)).Chain'
      (fun p q : ℚ × ℚ => p.1 + 1/2 ≤ q.1) := by
    rw [List.chain'_map]
    exact hgap
  haveI : IsTrans (ℚ × ℚ) (fun p q : ℚ × ℚ => p.1 + 1/2 ≤ q.1) :=
    ⟨fun a b c hab hbc => by linarith⟩
  have hev := htr.sublist hsub
  rw [List.chain'_map] at hev
  refine hev.imp ?_
  intro e₁ e₂ hle hlt
  exfalso
  simp only [eventKey] at hle
  linarith

/-- Witness for C1 on a concrete three-poll trace with 0.5 s gaps. -/
theorem c1_progress_event_spacing_witness :
    (throttleTrace.Chain' (fun a b => a.time + 1/2 ≤ b.time)) ∧
    ((monitor_download_progress "base" 100 (monitorInit 999) throttleTrace).1).Chain'
      (fun e₁ e₂ => e₂.time - e₁.time < 1/2 → 1 < |e₂.percentage - e₁.percentage|) :=
  ⟨by norm_num [throttleTrace, List.chain'_cons, List.chain'_singleton],
   c1_progress_event_spacing "base" 100 (monitorInit 999) throttleTrace
     (by norm_num [throttleTrace, List.chain'_cons, List.chain'_singleton])⟩

/-- Claim C3 is false on the code: a file stuck at 92 of 100 expected bytes
for 12.5 s (25 consecutive 0.5 s polls without growth, above the 0.9
threshold, below the 0.95 one, no cancellation) does NOT stop the monitor
loop, because `last_update_time` is refreshed at line 186 on every
iteration whether or not the size changed, so `current_time -
last_update_time` at line 181 is one poll interval, never more than 10. -/
theorem c3_stalled_counterexample :
    (∀ inp ∈ stallTrace,
      inp.stopSet = false ∧ inp.ioError = false ∧ effectiveSize inp = 92)
  ∧ stallTrace.length = 26
  ∧ stallTrace.head?.map Sample.time = some (2001/2 : ℚ)
  ∧ stallTrace.getLast?.map Sample.time = some (1013 : ℚ)
  ∧ ((1013 : ℚ) - 2001/2 > 10)
  ∧ ((100 : ℚ) * 0.9 < 92)
  ∧ ¬ ((100 : ℚ) * 0.95 ≤ 92)
  ∧ (monitor_download_progress "base" 100 (monitorInit 1000) stallTrace).2.1 = false := by
  decide

/-- Claim C3 amended: the stalled-but-essentially-done exit fires only when a
SINGLE inter-poll gap exceeds 10 s with the size unchanged from the
previous poll and above 0.9 of expected (the no-growth timer is reset every
iteration, so sustained no-growth at the normal 0.5 s cadence never
triggers it). -/
theorem c3_stall_exit_amended (model_name : String) (expected_size : ℤ)
    (s : MonitorState) (inp : Sample) (rest : List Sample)
    (hstop : inp.stopSet = false) (hio : inp.ioError = false)
    (hsame : effectiveSize inp = s.last_size)
    (hgap : 10 < inp.time - s.last_update_time)
    (hbig : (expected_size : ℚ) * 0.9 < (effectiveSize inp : ℚ)) :
    (monitor_download_progress model_name expected_size s (inp :: rest)).2.1 = true := by
  have hbrk : (monitorStep model_name expected_size s inp).brk = true := by
    simp only [monitorStep, hio, Bool.false_eq_true, if_false]
    by_cases h95 : (expected_size : ℚ) * 0.95 ≤ ((effectiveSize inp : ℕ) : ℚ)
    · rw [if_pos h95]
    · rw [if_neg h95, if_pos ⟨hsame, hgap, hbig⟩]
  simp [monitor_download_progress, hstop, hbrk]

/-- Witness for the amended C3: one poll 11 s after the previous one, size
unchanged at 92 of 100 expected, stops the loop. -/
theorem c3_stall_exit_amended_witness :
    ((⟨false, false, true, 92, 1011⟩ : Sample).stopSet = false)
  ∧ ((⟨false, false, true, 92, 1011⟩ : Sample).ioError = false)
  ∧ (effectiveSize ⟨false, false, true, 92, 1011⟩ =
      (⟨92, 1000, [], 0⟩ : MonitorState).last_size)
  ∧ (10 < (⟨false, false, true, 92, 1011⟩ : Sample).time -
      (⟨92, 1000, [], 0⟩ : MonitorState).last_update_time)
  ∧ (((100 : ℤ) : ℚ) * 0.9 <
      (effectiveSize ⟨false, false, true, 92, 1011⟩ : ℚ))
  ∧ (monitor_download_progress "base" 100 ⟨92, 1000, [], 0⟩
      [⟨false, false, true, 92, 1011⟩]).2.1 = true :=
  ⟨by decide, by decide, by decide, by decide, by decide,
   c3_stall_exit_amended "base" 100 ⟨92, 1000, [], 0⟩ ⟨false, false, true, 92, 1011⟩ []
     (by decide) (by decide) (by decide) (by decide) (by decide)⟩

/-- Claim C5: the computed percentage is `min(size/expected*100, 100)` for
positive expected size and 0 for non-positive expected size (never a
division by zero); every emitted event's percentage lies in [0, 100]; and
with a monotonically growing file the emitted percentages are monotonically
non-decreasing. -/
theorem c5_percentage_clamped_monotone (model_name : String)
    (e₁ e₂ expected_size : ℤ) (n₁ n₂ : ℕ) (s : MonitorState) (tr : List Sample) :
    (0 < e₁ → percentageOf e₁ n₁ = min ((n₁ : ℚ) / (e₁ : ℚ) * 100) 100)
  ∧ (e₂ ≤ 0 → percentageOf e₂ n₂ = 0)
  ∧ (∀ ev ∈ (monitor_download_progress model_name expected_size s tr).1,
      0 ≤ ev.percentage ∧ ev.percentage ≤ 100)
  ∧ ((tr.map effectiveSize).Chain' (· ≤ ·) →
      ((monitor_download_progress model_name expected_size s tr).1.map
        (fun ev => ev.percentage)).Chain' (· ≤ ·)) := by
  refine ⟨?_, ?_, ?_, ?_⟩
  · intro h
    unfold percentageOf
    rw [if_pos h]
  · intro h
    unfold percentageOf
    rw [if_neg (not_lt.mpr h)]
    norm_num
  · intro ev hev
    have hsub := monitor_events_key_sublist model_name expected_size tr s
    have hmem : eventKey ev ∈ tr.map (sampleKey expected_size) :=
      hsub.subset (List.mem_map_of_mem _ hev)
    rcases List.mem_map.mp hmem with ⟨inp, _, hk⟩
    have hp : ev.percentage = percentageOf expected_size (effectiveSize inp) := by
      have h2 := congrArg Prod.snd hk
      simp only [eventKey, sampleKey] at h2
      exact h2.symm
    rw [hp]
    exact ⟨percentageOf_nonneg _ _, percentageOf_le_100 _ _⟩
  · intro hmono
    have hsub := (monitor_events_key_sublist model_name expected_size tr s).map Prod.snd
    rw [List.map_map, List.map_map] at hsub
    have htr : (tr.map (Prod.snd ∘ sampleKey expected_size)).Chain' (· ≤ ·) := by
      rw [List.chain'_map]
      rw [List.chain'_map] at hmono
      exact hmono.imp (fun a b h => percentageOf_mono _ h)
    haveI : IsTrans ℚ (· ≤ ·) := ⟨fun a b c => le_trans⟩
    have hev := htr.sublist hsub
    rw [List.chain'_map] at hev ⊢
    exact hev.imp (fun a b h => h)

/-- Witness for C5 on a concrete growing trace, expected sizes 100 and 0. -/
theorem c5_percentage_clamped_monotone_witness :
    ((0 : ℤ) < 100) ∧ ((0 : ℤ) ≤ 0)
  ∧ ((throttleTrace.map effectiveSize).Chain' (· ≤ ·))
  ∧ (percentageOf 100 50 = min ((50 : ℚ) / (100 : ℚ) * 100) 100)
  ∧ (percentageOf 0 7 = 0)
  ∧ (∀ ev ∈ (monitor_download_progress "base" 100 (monitorInit 999) throttleTrace).1,
      0 ≤ ev.percentage ∧ ev.percentage ≤ 100)
  ∧ (((monitor_download_progress "base" 100 (monitorInit 999) throttleTrace).1.map
      (fun ev => ev.percentage)).Chain' (· ≤ ·)) :=
  ⟨by decide, by decide,
   by norm_num [throttleTrace, effectiveSize, List.chain'_cons, List.chain'_singleton],
   (c5_percentage_clamped_monotone "base" 100 0 100 50 7 (monitorInit 999)
     throttleTrace).1 (by decide),
   (c5_percentage_clamped_monotone "base" 100 0 100 50 7 (monitorInit 999)
     throttleTrace).2.1 (by decide),
   (c5_percentage_clamped_monotone "base" 100 0 100 50 7 (monitorInit 999)
     throttleTrace).2.2.1,
   (c5_percentage_clamped_monotone "base" 100 0 100 50 7 (monitorInit 999)
     throttleTrace).2.2.2
     (by norm_num [throttleTrace, effectiveSize, List.chain'_cons,
       List.chain'_singleton])⟩

theorem trimWindow_subset (w : List ℚ) : ∀ x ∈ trimWindow w, x ∈ w := by
  unfold trimWindow
  split_ifs
  · exact fun x hx => List.mem_of_mem_drop hx
  · exact fun x hx => hx

theorem trimWindow_concat_length_pos (w : List ℚ) (a : ℚ) :
    0 < (trimWindow (w ++ [a])).length := by
  unfold trimWindow
  split_ifs with h
  · simp only [List.length_drop, List.length_append, List.length_singleton] at h ⊢
    omega
  · simp

theorem updatedSamples_length_le (s : MonitorState) (cs : ℕ) (td : ℚ)
    (h : s.speed_samples.length ≤ 10) :
    (updatedSamples s cs td).length ≤ 10 := by
  unfold updatedSamples trimWindow
  split_ifs with h1 h2
  · simp only [List.length_drop, List.length_append, List.length_singleton]
    omega
  · simp only [List.length_append, List.length_singleton] at h2 ⊢
    omega
  · exact h

/-- The window-size bound is preserved over any run of the monitor loop. -/
theorem monitor_window_le (model_name : String) (expected_size : ℤ)
    (tr : List Sample) : ∀ s : MonitorState, s.speed_samples.length ≤ 10 →
    ((monitor_download_progress model_name expected_size s tr).2.2).speed_samples.length ≤ 10 := by
  induction tr with
  | nil => intro s h; simpa [monitor_download_progress]
  | cons inp rest ih =>
    intro s h
    have hstep : (monitorStep model_name expected_size s inp).state.speed_samples.length ≤ 10 := by
      rw [monitorStep_state_samples]
      split_ifs
      · exact h
      · exact updatedSamples_length_le s _ _ h
    by_cases hstop : inp.stopSet
    · simpa [monitor_download_progress, hstop]
    · by_cases hbrk : (monitorStep model_name expected_size s inp).brk
      · simpa [monitor_download_progress, hstop, hbrk] using hstep
      · simpa [monitor_download_progress, hstop, hbrk] using ih _ hstep

/-- Claim C6 is false on the code: after two growth polls the monitor has a
positive smoothed speed (5/32768 Mbps here), but the next zero-growth poll
emits speed 0 instead of keeping the previously reported smoothed speed,
because `speed_mbps` is re-initialised to 0 at line 148 on every iteration
and the emitted payload falls back to 0 when it is not positive (line 172). -/
theorem c6_speed_counterexample :
    (speedTrace.map effectiveSize = [10, 20, 20])
  ∧ (((monitor_download_progress "base" 100 (monitorInit 1000) speedTrace).1).map
      (fun ev => ev.speed_mbps) = [0, 5/32768, 0])
  ∧ ((5 : ℚ)/32768 ≠ 0) := by
  decide

/-- Claim C6 amended: when the file grew AND the previously observed size was
positive AND the elapsed time is positive, the instantaneous throughput is
appended to the window (capacity 10, oldest dropped first) and the emitted
speed is the window's arithmetic mean; in every other iteration the window
is kept but the iteration's reported speed is 0 (not the previous smoothed
value).  The window never exceeds 10 samples over any run. -/
theorem c6_speed_window_amended (model_name : String) (expected_size : ℤ)
    (s₀ s s' : MonitorState) (inp inp' : Sample) (tr : List Sample)
    (h₀ : s₀.speed_samples.length ≤ 10)
    (hio : inp.ioError = false)
    (hgrew : grewCond s (effectiveSize inp) (inp.time - s.last_update_time))
    (hpos : ∀ x ∈ s.speed_samples, 0 < x)
    (hio' : inp'.ioError = false)
    (hstale : ¬ grewCond s' (effectiveSize inp') (inp'.time - s'.last_update_time)) :
    (((monitor_download_progress model_name expected_size s₀ tr).2.2).speed_samples.length ≤ 10)
  ∧ ((monitorStep model_name expected_size s inp).state.speed_samples =
      trimWindow (s.speed_samples ++
        [instantSpeed s (effectiveSize inp) (inp.time - s.last_update_time)]))
  ∧ (∀ ev, (monitorStep model_name expected_size s inp).event = some ev →
      ev.speed_mbps =
        ((monitorStep model_name expected_size s inp).state.speed_samples).sum /
          (((monitorStep model_name expected_size s inp).state.speed_samples).length : ℚ))
  ∧ ((monitorStep model_name expected_size s' inp').state.speed_samples =
      s'.speed_samples)
  ∧ (∀ ev, (monitorStep model_name expected_size s' inp').event = some ev →
      ev.speed_mbps = 0) := by
  have hW : (monitorStep model_name expected_size s inp).state.speed_samples =
      trimWindow (s.speed_samples ++
        [instantSpeed s (effectiveSize inp) (inp.time - s.last_update_time)]) := by
    rw [monitorStep_state_samples, if_neg (by simp [hio]), updatedSamples,
      if_pos hgrew]
  refine ⟨monitor_window_le model_name expected_size tr s₀ h₀, hW, ?_, ?_, ?_⟩
  · intro ev hev
    set cs := effectiveSize inp
    set td := inp.time - s.last_update_time
    have hinst : 0 < instantSpeed s cs td := by
      unfold instantSpeed
      have h1 : (0 : ℚ) < (cs : ℚ) - (s.last_size : ℚ) := by
        have := hgrew.2.2
        have : (s.last_size : ℚ) < (cs : ℚ) := by exact_mod_cast this
        linarith
      have h2 : (0 : ℚ) < td := hgrew.2.1
      have h3 : (0 : ℚ) < ((cs : ℚ) - (s.last_size : ℚ)) / td := div_pos h1 h2
      positivity
    have hposW : ∀ x ∈ (monitorStep model_name expected_size s inp).state.speed_samples,
        0 < x := by
      rw [hW]
      intro x hx
      rcases List.mem_append.mp (trimWindow_subset _ x hx) with h | h
      · exact hpos x h
      · rw [List.mem_singleton.mp h]; exact hinst
    have hne : (monitorStep model_name expected_size s inp).state.speed_samples ≠ [] := by
      rw [hW]
      have := trimWindow_concat_length_pos s.speed_samples (instantSpeed s cs td)
      intro hcon
      rw [hcon] at this
      simp at this
    have hsum : 0 < ((monitorStep model_name expected_size s inp).state.speed_samples).sum :=
      List.sum_pos _ hposW hne
    have hlen : (0 : ℚ) <
        (((monitorStep model_name expected_size s inp).state.speed_samples).length : ℚ) := by
      have := List.length_pos.mpr hne
      exact_mod_cast this
    have hmean : 0 < smoothedSpeed s cs td := by
      have hs : smoothedSpeed s cs td =
          ((monitorStep model_name expected_size s inp).state.speed_samples).sum /
            (((monitorStep model_name expected_size s inp).state.speed_samples).length : ℚ) := by
        unfold smoothedSpeed
        rw [if_pos hgrew]
        rw [hW]
        unfold updatedSamples
        rw [if_pos hgrew]
      rw [hs]
      exact div_pos hsum hlen
    rcases monitorStep_event model_name expected_size s inp with h | h
    · rw [h] at hev; cases hev
    · rw [h] at hev
      cases hev
      simp only [if_pos hmean]
      unfold smoothedSpeed
      rw [if_pos hgrew]
      rw [hW]
      unfold updatedSamples
      rw [if_pos hgrew]
  · rw [monitorStep_state_samples, if_neg (by simp [hio']), updatedSamples,
      if_neg hstale]
  · intro ev hev
    have hz : smoothedSpeed s' (effectiveSize inp') (inp'.time - s'.last_update_time) = 0 := by
      unfold smoothedSpeed
      rw [if_neg hstale]
    rcases monitorStep_event model_name expected_size s' inp' with h | h
    · rw [h] at hev; cases hev
    · rw [h] at hev
      cases hev
      rw [hz]
      simp

/-- Witness for the amended C6: a growth iteration appends and reports the
mean; a zero-growth iteration keeps the window and reports 0. -/
theorem c6_speed_window_amended_witness :
    ((monitorInit 1000).speed_samples.length ≤ 10)
  ∧ ((⟨false, false, true, 20, 1000 + 1/2⟩ : Sample).ioError = false)
  ∧ (grewCond ⟨10, 1000, [], 10⟩ (effectiveSize ⟨false, false, true, 20, 1000 + 1/2⟩)
      ((1000 + 1/2 : ℚ) - 1000))
  ∧ (∀ x ∈ (⟨10, 1000, [], 10⟩ : MonitorState).speed_samples, 0 < x)
  ∧ (¬ grewCond ⟨20, 1001, [5/32768], 20⟩
      (effectiveSize ⟨false, false, true, 20, 1001 + 1/2⟩)
      ((1001 + 1/2 : ℚ) - 1001))
  ∧ ((monitorStep "base" 100 ⟨10, 1000, [], 10⟩
      ⟨false, false, true, 20, 1000 + 1/2⟩).state.speed_samples =
      trimWindow ([] ++ [instantSpeed ⟨10, 1000, [], 10⟩
        (effectiveSize ⟨false, false, true, 20, 1000 + 1/2⟩)
        ((⟨false, false, true, 20, 1000 + 1/2⟩ : Sample).time -
          (⟨10, 1000, [], 10⟩ : MonitorState).last_update_time)]))
  ∧ (∀ ev, (monitorStep "base" 100 ⟨20, 1001, [5/32768], 20⟩
      ⟨false, false, true, 20, 1001 + 1/2⟩).event = some ev → ev.speed_mbps = 0) := by
  have h := c6_speed_window_amended "base" 100 (monitorInit 1000)
    ⟨10, 1000, [], 10⟩ ⟨20, 1001, [5/32768], 20⟩
    ⟨false, false, true, 20, 1000 + 1/2⟩ ⟨false, false, true, 20, 1001 + 1/2⟩ []
    (by decide) (by decide) (by decide) (by decide) (by decide) (by decide)
  exact ⟨by decide, by decide, by decide, by decide, by decide, h.2.1, h.2.2.2.2⟩

/-- A stream of `progress`-only events contains no `complete` event. -/
theorem completeCount_progress_zero (evs : List ProgressEvent)
    (h : ∀ e ∈ evs, e.etype = EventType.progress) : completeCount evs = 0 := by
  unfold completeCount
  rw [List.countP_eq_zero]
  intro e he
  simp [h e he]

/-- Claim C2 is false on the code: when the blocking download call raises,
`download_model` sets the stop signal (line 269) but performs no bounded
join and emits no `complete` event — the `except` branches return the
failure dict directly, so the invocation ends with no terminal `complete`
event. -/
theorem c2_complete_counterexample :
    ((download_model "base" false 0 100 [] (.raised "network error") false 0
        2000).signalSet = true)
  ∧ ((download_model "base" false 0 100 [] (.raised "network error") false 0
        2000).joinedBounded = false)
  ∧ (completeCount (download_model "base" false 0 100 []
        (.raised "network error") false 0 2000).events = 0)
  ∧ ((download_model "base" false 0 100 [] (.raised "network error") false 0
        2000).result.success = false) := by
  decide

/-- Claim C2 amended: on every non-short-circuit invocation the cancellation
signal is set; when the blocking call returns normally the orchestrator
additionally joins the monitor (bounded) and emits exactly one terminal
`complete` event with percentage 100 after all `progress` events; when the
call raises or is interrupted it neither joins nor emits a `complete`
event, returning a failure result. -/
theorem c2_complete_amended (model_name : String) (existing_size final_size : ℕ)
    (expected_size : ℤ) (monitorEvents : List ProgressEvent) (msg : String)
    (finalFileExists : Bool) (t_end : ℚ) (outcome : DownloadOutcome)
    (hmon : ∀ e ∈ monitorEvents, e.etype = EventType.progress) :
    ((download_model model_name false existing_size expected_size monitorEvents
        outcome finalFileExists final_size t_end).signalSet = true)
  ∧ (((download_model model_name false existing_size expected_size monitorEvents
        .completed finalFileExists final_size t_end).joinedBounded = true)
    ∧ ((download_model model_name false existing_size expected_size monitorEvents
        .completed finalFileExists final_size t_end).events =
        monitorEvents ++ [completeEvent model_name
          (if finalFileExists then final_size else 0) expected_size t_end])
    ∧ (completeCount (download_model model_name false existing_size expected_size
        monitorEvents .completed finalFileExists final_size t_end).events = 1)
    ∧ ((download_model model_name false existing_size expected_size monitorEvents
        .completed finalFileExists final_size t_end).events.getLast? =
        some (completeEvent model_name
          (if finalFileExists then final_size else 0) expected_size t_end))
    ∧ ((completeEvent model_name (if finalFileExists then final_size else 0)
        expected_size t_end).etype = EventType.complete)
    ∧ ((completeEvent model_name (if finalFileExists then final_size else 0)
        expected_size t_end).percentage = 100))
  ∧ (((download_model model_name false existing_size expected_size monitorEvents
        (.raised msg) finalFileExists final_size t_end).joinedBounded = false)
    ∧ (completeCount (download_model model_name false existing_size expected_size
        monitorEvents (.raised msg) finalFileExists final_size t_end).events = 0)
    ∧ ((download_model model_name false existing_size expected_size monitorEvents
        (.raised msg) finalFileExists final_size t_end).result.success = false))
  ∧ (((download_model model_name false existing_size expected_size monitorEvents
        .interrupted finalFileExists final_size t_end).joinedBounded = false)
    ∧ (completeCount (download_model model_name false existing_size expected_size
        monitorEvents .interrupted finalFileExists final_size t_end).events = 0)
    ∧ ((download_model model_name false existing_size expected_size monitorEvents
        .interrupted finalFileExists final_size t_end).result.success = false)) := by
  have hc := completeCount_progress_zero monitorEvents hmon
  have hcount : completeCount (monitorEvents ++ [completeEvent model_name
      (if finalFileExists then final_size else 0) expected_size t_end]) = 1 := by
    unfold completeCount at hc ⊢
    rw [List.countP_append, hc]
    simp [completeEvent]
  refine ⟨?_, ⟨rfl, rfl, hcount, ?_, rfl, rfl⟩, ⟨rfl, hc, rfl⟩, ⟨rfl, hc, rfl⟩⟩
  · cases outcome <;> rfl
  · exact List.getLast?_concat _

/-- Witness for the amended C2 with one concrete `progress` event emitted by
the monitor before the download call returned. -/
theorem c2_complete_amended_witness :
    (∀ e ∈ [(⟨EventType.progress, "base", 50, 100, 50, 2, 1000⟩ : ProgressEvent)],
      e.etype = EventType.progress)
  ∧ ((download_model "base" false 0 100
      [⟨EventType.progress, "base", 50, 100, 50, 2, 1000⟩]
      .completed true 100 2000).events =
      [⟨EventType.progress, "base", 50, 100, 50, 2, 1000⟩] ++
        [completeEvent "base" (if true then 100 else 0) 100 2000])
  ∧ (completeCount (download_model "base" false 0 100
      [⟨EventType.progress, "base", 50, 100, 50, 2, 1000⟩]
      .completed true 100 2000).events = 1)
  ∧ ((download_model "base" false 0 100
      [⟨EventType.progress, "base", 50, 100, 50, 2, 1000⟩]
      (.raised "boom") true 100 2000).joinedBounded = false) :=
  ⟨by decide,
   (c2_complete_amended "base" 0 100 100
     [⟨EventType.progress, "base", 50, 100, 50, 2, 1000⟩] "boom" true 2000
     .completed (by decide)).2.1.2.1,
   (c2_complete_amended "base" 0 100 100
     [⟨EventType.progress, "base", 50, 100, 50, 2, 1000⟩] "boom" true 2000
     .completed (by decide)).2.1.2.2.1,
   (c2_complete_amended "base" 0 100 100
     [⟨EventType.progress, "base", 50, 100, 50, 2, 1000⟩] "boom" true 2000
     .completed (by decide)).2.2.1.1⟩

/-- Claim C8: a download invocation whose target file already exists on disk
returns success with the existing file's size, spawns no monitor, never
invokes the external download call, and emits no event at all. -/
theorem c8_short_circuit (model_name : String) (fileExistsAtStart : Bool)
    (existing_size final_size : ℕ) (expected_size : ℤ)
    (monitorEvents : List ProgressEvent) (outcome : DownloadOutcome)
    (finalFileExists : Bool) (t_end : ℚ)
    (h : fileExistsAtStart = true) :
    ((download_model model_name fileExistsAtStart existing_size expected_size
        monitorEvents outcome finalFileExists final_size t_end).result.success = true)
  ∧ ((download_model model_name fileExistsAtStart existing_size expected_size
        monitorEvents outcome finalFileExists final_size t_end).result.size_bytes =
        some existing_size)
  ∧ ((download_model model_name fileExistsAtStart existing_size expected_size
        monitorEvents outcome finalFileExists final_size t_end).monitorSpawned = false)
  ∧ ((download_model model_name fileExistsAtStart existing_size expected_size
        monitorEvents outcome finalFileExists final_size t_end).downloadInvoked = false)
  ∧ ((download_model model_name fileExistsAtStart existing_size expected_size
        monitorEvents outcome finalFileExists final_size t_end).events = []) := by
  subst h
  simp [download_model]

/-- Witness for C8: file of 74 bytes already present. -/
theorem c8_short_circuit_witness :
    (true = true)
  ∧ ((download_model "base" true 74 100 [] .completed true 74 2000).result.success = true)
  ∧ ((download_model "base" true 74 100 [] .completed true 74
      2000).result.size_bytes = some 74)
  ∧ ((download_model "base" true 74 100 [] .completed true 74
      2000).monitorSpawned = false)
  ∧ ((download_model "base" true 74 100 [] .completed true 74 2000).events = []) :=
  ⟨rfl,
   (c8_short_circuit "base" true 74 74 100 [] .completed true 2000 rfl).1,
   (c8_short_circuit "base" true 74 74 100 [] .completed true 2000 rfl).2.1,
   (c8_short_circuit "base" true 74 74 100 [] .completed true 2000 rfl).2.2.1,
   (c8_short_circuit "base" true 74 74 100 [] .completed true 2000 rfl).2.2.2.2⟩

/-- One `load_model` call preserves the cache-size bound. -/
theorem load_model_length_le {M : Type} (loads : String → Option M)
    (c : ModelCache M) (n : String) (h : c.length ≤ MAX_CACHED) :
    (load_model loads c n).2.length ≤ MAX_CACHED := by
  unfold load_model
  cases hl : cacheLookup c n with
  | some m => simpa using h
  | none =>
    cases hf : loads n with
    | none => simpa using h
    | some m =>
      simp only []
      by_cases hlen : MAX_CACHED ≤ c.length
      · simp only [if_pos hlen, List.length_append, List.length_drop,
          List.length_singleton]
        unfold MAX_CACHED at *
        omega
      · simp only [if_neg hlen, List.length_append, List.length_singleton]
        unfold MAX_CACHED at *
        omega

/-- The bound holds after any sequence of calls from the empty cache. -/
theorem runLoads_length_le {M : Type} (loads : String → Option M)
    (names : List String) : (runLoads loads names).length ≤ MAX_CACHED := by
  unfold runLoads
  suffices h : ∀ c : ModelCache M, c.length ≤ MAX_CACHED →
      (names.foldl (fun c n => (load_model loads c n).2) c).length ≤ MAX_CACHED by
    exact h [] (by simp [MAX_CACHED])
  induction names with
  | nil => intro c h; simpa
  | cons n rest ih =>
    intro c h
    exact ih _ (load_model_length_le loads c n h)

/-- Claim C4: over any sequence of `load_model` calls the cache never holds
more than `MAX_CACHED = 2` entries; a hit returns the cached model and
leaves the cache (hence insertion order) unchanged; and an insertion into a
full cache evicts exactly the head of the insertion-ordered cache, i.e. the
entry inserted earliest among those currently present. -/
theorem c4_cache_fifo {M : Type} (loads : String → Option M) (names : List String)
    (chit : ModelCache M) (nhit : String) (mhit : M)
    (cmiss : ModelCache M) (nmiss : String) (mmiss : M) :
    ((runLoads loads names).length ≤ MAX_CACHED)
  ∧ (cacheLookup chit nhit = some mhit →
      load_model loads chit nhit = (some mhit, chit))
  ∧ (cacheLookup cmiss nmiss = none → loads nmiss = some mmiss →
      MAX_CACHED ≤ cmiss.length →
      (load_model loads cmiss nmiss).2 = cmiss.drop 1 ++ [(nmiss, mmiss)]) := by
  refine ⟨runLoads_length_le loads names, ?_, ?_⟩
  · intro h
    simp [load_model, h]
  · intro h1 h2 h3
    simp [load_model, h1, h2, h3]

/-- Witness for C4: three loads from empty stay within the bound; a hit on a
one-entry cache returns it unchanged; inserting into a full two-entry cache
drops its head. -/
theorem c4_cache_fifo_witness :
    (cacheLookup [("base", (0 : ℕ))] "base" = some 0)
  ∧ (cacheLookup ([("tiny", 5), ("base", 7)] : ModelCache ℕ) "small" = none)
  ∧ ((fun _ => some 2 : String → Option ℕ) "small" = some 2)
  ∧ (MAX_CACHED ≤ ([("tiny", 5), ("base", 7)] : ModelCache ℕ).length)
  ∧ ((runLoads (fun _ => some 2 : String → Option ℕ)
      ["tiny", "base", "small"]).length ≤ MAX_CACHED)
  ∧ (load_model (fun _ => some 2 : String → Option ℕ) [("base", 0)] "base" =
      (some 0, [("base", 0)]))
  ∧ ((load_model (fun _ => some 2 : String → Option ℕ)
      [("tiny", 5), ("base", 7)] "small").2 = [("base", 7), ("small", 2)]) :=
  ⟨by decide, by decide, by decide, by decide,
   (c4_cache_fifo (fun _ => some 2) ["tiny", "base", "small"]
     [("base", 0)] "base" 0 [("tiny", 5), ("base", 7)] "small" 2).1,
   (c4_cache_fifo (fun _ => some 2) ["tiny", "base", "small"]
     [("base", 0)] "base" 0 [("tiny", 5), ("base", 7)] "small" 2).2.1 (by decide),
   (c4_cache_fifo (fun _ => some 2) ["tiny", "base", "small"]
     [("base", 0)] "base" 0 [("tiny", 5), ("base", 7)] "small" 2).2.2
     (by decide) (by decide) (by decide)⟩

/-- Claim C10: when the external loader raises on a cache miss, `load_model`
returns `None` and the cache is exactly as before — nothing inserted,
nothing evicted (eviction happens only after a successful load, just before
insertion). -/
theorem c10_load_failure {M : Type} (loads : String → Option M)
    (c : ModelCache M) (model_name : String)
    (hmiss : cacheLookup c model_name = none)
    (hfail : loads model_name = none) :
    load_model loads c model_name = (none, c) := by
  simp [load_model, hmiss, hfail]

/-- Witness for C10: a failing loader on a miss leaves the one-entry cache
untouched. -/
theorem c10_load_failure_witness :
    (cacheLookup [("base", (0 : ℕ))] "tiny" = none)
  ∧ ((fun _ => none : String → Option ℕ) "tiny" = none)
  ∧ (load_model (fun _ => none : String → Option ℕ) [("base", 0)] "tiny" =
      (none, [("base", 0)])) :=
  ⟨by decide, by decide,
   c10_load_failure (fun _ => none) [("base", 0)] "tiny" (by decide) (by decide)⟩

/-- Claim C7 is false on the code: a transcription that fails (success flag
false) with the default `json` output format still exits 0 — `main` only
calls `sys.exit(1)` for a missing/nonexistent audio file or for a failed
transcription in `text` output format. -/
theorem c7_exit_code_counterexample :
    ((main ⟨.transcribe, some "audio.wav", .json⟩ true
        ⟨false, some "Failed to load Whisper model"⟩).2 = 0)
  ∧ ((main ⟨.transcribe, some "audio.wav", .json⟩ true
        ⟨false, some "Failed to load Whisper model"⟩).1.success = false) := by
  decide

/-- Claim C7 amended: the exit code is non-zero exactly when the mode is
`transcribe` and either the audio-file argument is missing, or the audio
file does not exist, or the output format is `text` and the produced
result's success flag is false.  In particular a failed transcription with
`json` output exits 0, and all non-transcribe modes always exit 0. -/
theorem c7_exit_code_amended (args : CliArgs) (audioFileOnDisk : Bool)
    (opResult : ModeOutcome) :
    (main args audioFileOnDisk opResult).2 ≠ 0 ↔
      args.mode = Mode.transcribe ∧
        (args.audio_file = none ∨ audioFileOnDisk = false ∨
          (args.output_format = OutputFormat.text ∧
            (main args audioFileOnDisk opResult).1.success = false)) := by
  obtain ⟨mode, af, fmt⟩ := args
  obtain ⟨hsucc, herr⟩ := opResult
  cases mode <;> cases af <;> cases audioFileOnDisk <;> cases fmt <;>
    cases hsucc <;> simp [main]

/-- Claim C9 is false on the code in its no-failure-result part: deleting an
absent model returns `success: False` with error `"Model not found"` — by
the file's own result contract that IS a failure `OperationResult` (though
`delete` mode still exits 0 and nothing is raised). -/
theorem c9_delete_counterexample :
    ((delete_model "base" false 0 none).1.error = some "Model not found")
  ∧ ((delete_model "base" false 0 none).1.success = false)
  ∧ ((delete_model "base" false 0 none).1.deleted = false) := by
  decide

/-- Claim C9 amended: `delete_model` removes the file when present and
returns the freed byte count (the file's size before removal) with
success; when the file is absent it returns `deleted: false`,
`error: "Model not found"`, `success: false` — a failure result, not a
raised exception; and any filesystem exception is caught and converted to a
failure result, so the operation never raises. -/
theorem c9_delete_amended (model_name : String) (file_size : ℕ) (msg : String) :
    (delete_model model_name true file_size none =
      (⟨model_name, true, some file_size, none, true⟩, false))
  ∧ (delete_model model_name false file_size none =
      (⟨model_name, false, none, some "Model not found", false⟩, false))
  ∧ ((delete_model model_name true file_size (some msg)).1.success = false)
  ∧ ((delete_model model_name true file_size (some msg)).1.error = some msg) := by
  refine ⟨?_, ?_, rfl, rfl⟩ <;> simp [delete_model]

end WhisperBridge
